import Mathlib

/-!
Verification of the ETH_Spread monitoring frontend and its analytics
engine contract.

The repository source under scrutiny is the React/TypeScript frontend
(frontend/src/pages/AssetPage.tsx, Dashboard.tsx, the Settings page, and
frontend/src/services/api.ts).  Numeric values are embedded as exact
rationals.  Optional (possibly undefined) values are embedded as Option.
The backend analytics formulas (FairValueModel, ProfitCalculator,
FundingRateHistory, configuration validation) are not present in the
repository sources; where a claim depends on them they are modelled from
the specification, and each such definition says so in its doc comment.

The file lists all definitions first and all theorems after them.
-/

/-! ## Display formatters (AssetPage.tsx) -/

/-- Digit-level part of toFixed: print the integer n (the value scaled
by 10^d and rounded) as a decimal string with d fraction digits. -/
def renderFixed (n : ℤ) (d : ℕ) : String :=
  let m : ℕ := n.natAbs
  let ipart : ℕ := m / 10 ^ d
  let fpart : ℕ := m % 10 ^ d
  let fs : String := toString fpart
  let fsPadded : String := String.mk (List.replicate (d - fs.length) '0') ++ fs
  (if n < 0 then "-" else "") ++ toString ipart ++
    (if d = 0 then "" else "." ++ fsPadded)

/-- Decimal rendering of a rational with a fixed number of fraction
digits, modelling the JavaScript Number.prototype.toFixed: the value is
rounded to the nearest multiple of 10^(-d), ties toward the larger
integer (which ⌊x + 1/2⌋ implements exactly), and printed with d
fraction digits. -/
def toFixed (q : ℚ) (d : ℕ) : String :=
  renderFixed ⌊q * (10 : ℚ) ^ d + 1 / 2⌋ d

/-- AssetPage.tsx formatNumber: undefined/null renders as the string
N/A, a number is rendered with num.toFixed(decimals). -/
def formatNumber (num : Option ℚ) (decimals : ℕ) : String :=
  match num with
  | none => "N/A"
  | some q => toFixed q decimals

/-- AssetPage.tsx formatPercent: undefined/null renders as N/A; a number
is multiplied by 100 (the backend sends funding rates as decimals, e.g.
0.0001 = 0.01 percent) and rendered with a percent sign.  The source's
template prepends the empty string for both signs, so no explicit sign
mark is added. -/
def formatPercent (num : Option ℚ) (decimals : ℕ) : String :=
  match num with
  | none => "N/A"
  | some q => toFixed (q * 100) decimals ++ "%"

/-- AssetPage.tsx formatPercentAlready: undefined/null renders as N/A; a
number is already expressed in percent (e.g. 3.89 = 3.89 percent) and is
rendered without rescaling, with a percent sign. -/
def formatPercentAlready (num : Option ℚ) (decimals : ℕ) : String :=
  match num with
  | none => "N/A"
  | some q => toFixed q decimals ++ "%"

/-- One row of the futures table on the asset page (frontend type
FutureData).  Fields the backend may omit are Options. -/
structure FutureData where
  symbol : String
  days_until_expiration : Option ℚ
  mark_price : Option ℚ
  spread_percent : Option ℚ
  fair_spread_percent : Option ℚ
  funding_rate_until_expiration : Option ℚ
  funding_rate_365days_until_expiration : Option ℚ
  net_profit_current_fr : Option ℚ
  net_profit_365days_fr : Option ℚ
  net_profit_usdt : Option ℚ
  net_profit_usdt_365days : Option ℚ
  return_on_capital : Option ℚ
  return_on_capital_365days : Option ℚ
  deriving DecidableEq

/-- AssetPage.tsx shouldHighlight: a row is highlighted when the four
inputs are all defined and the three strict comparisons hold
(spread_percent < funding_rate_until_expiration, spread_percent <
fair_spread_percent, net_profit_current_fr > 0).  In the source an
undefined operand makes the JavaScript comparison false, so the
definedness conjuncts and the comparisons collapse to this match. -/
def shouldHighlight (f : FutureData) : Bool :=
  match f.spread_percent, f.funding_rate_until_expiration,
        f.fair_spread_percent, f.net_profit_current_fr with
  | some sp, some fr, some fs, some np =>
      decide (sp < fr) && decide (sp < fs) && decide (np > 0)
  | _, _, _, _ => false

/-- AssetPage.tsx ROC table cell: return_on_capital is rendered with
formatNumber and a percent sign when defined, and as N/A otherwise. -/
def rocCellText (f : FutureData) : String :=
  match f.return_on_capital with
  | some _ => formatNumber f.return_on_capital 2 ++ "%"
  | none => "N/A"

/-- Helper building a futures row whose four highlight inputs are given
and whose remaining fields are absent. -/
def mkFuture (sp fr fs np : Option ℚ) : FutureData :=
  { symbol := "ETHUSDT-26DEC25"
    days_until_expiration := none
    mark_price := none
    spread_percent := sp
    fair_spread_percent := fs
    funding_rate_until_expiration := fr
    net_profit_current_fr := np
    net_profit_365days_fr := none
    net_profit_usdt := none
    net_profit_usdt_365days := none
    return_on_capital := none
    return_on_capital_365days := none
    funding_rate_365days_until_expiration := none }

/-! ## The analytics engine

The backend that computes the derived metrics is not part of the
repository sources; the definitions below are modelled from the
specification (sections 4.2 to 4.4 and section 8 of spec.md). -/

/-- Modelled from the spec: the spread convention used by every
consumer, (future_price - perpetual_price) / perpetual_price * 100, a
value already expressed in percent. -/
def spreadPercent (future_price perpetual_price : ℚ) : ℚ :=
  (future_price - perpetual_price) / perpetual_price * 100

/-- Modelled from the spec (FairValueModel): simple cost-of-carry fair
price of a dated future, P * (1 + r * d / 365), no compounding. -/
def fairPrice (P r d : ℚ) : ℚ :=
  P * (1 + r * d / 365)

/-- Modelled from the spec (FairValueModel): the fair spread in percent,
(fair_price - P) / P * 100. -/
def fairSpreadPct (P r d : ℚ) : ℚ :=
  (fairPrice P r d - P) / P * 100

/-- One commission leg, 0.0290 percent (AssetPage.tsx commission
panel). -/
def legCommissionPct : ℚ := 29 / 1000

/-- Fixed round-trip commission, four legs of 0.0290 percent each:
0.1160 percent (AssetPage.tsx commission panel and spec section
4.4). -/
def roundTripCommissionPct : ℚ := 4 * legCommissionPct

/-- Modelled from the spec (ProfitCalculator): projected funding income
in percent over the remaining life of the future, from a per-interval
decimal funding rate, 3 funding intervals per day, d days; the section 8
scenario fixes the unit conversion as rate * 3 * d * 100. -/
def fundingRateUntilExpiration (frPerInterval d : ℚ) : ℚ :=
  frPerInterval * 3 * d * 100

/-- Modelled from the spec (ProfitCalculator): net profit in percent on
the short-window funding basis, funding income minus actual spread minus
round-trip commission. -/
def netProfitCurrentFr (frShort d spread : ℚ) : ℚ :=
  fundingRateUntilExpiration frShort d - spread - roundTripCommissionPct

/-- Modelled from the spec (ProfitCalculator): annualized return on
capital, net_profit * (365 / d); undefined (not zero, not a NaN) when
d = 0. -/
def returnOnCapital (netProfit d : ℚ) : Option ℚ :=
  if d = 0 then none else some (netProfit * (365 / d))

/-- Modelled from the spec (FundingRateHistory): an immutable funding
sample. -/
structure FundingSample where
  symbol : String
  rate : ℚ
  timestamp : ℚ
  deriving DecidableEq

/-- Modelled from the spec (FundingRateHistory): whether a sample's
timestamp lies within the window of windowDays days ending at now
(timestamps in seconds, 86400 seconds per day). -/
def inWindow (now windowDays : ℚ) (s : FundingSample) : Bool :=
  decide (now - windowDays * 86400 ≤ s.timestamp ∧ s.timestamp ≤ now)

/-- Modelled from the spec (FundingRateHistory.averageOver): arithmetic
mean of the in-window samples for one symbol, or none when the window
holds zero samples — callers must treat none as insufficient data, never
as zero. -/
def averageOver (samples : List FundingSample) (sym : String)
    (windowDays now : ℚ) : Option ℚ :=
  let inWin := samples.filter (fun s => s.symbol == sym && inWindow now windowDays s)
  if inWin.length = 0 then none
  else some ((inWin.map (fun s => s.rate)).sum / inWin.length)

/-! ## The dashboard table (Dashboard.tsx) -/

/-- One row of the dashboard table (frontend type InstrumentData as
consumed by Dashboard.tsx: every rendered field is present). -/
structure InstrumentData where
  symbol : String
  futures_symbol : String
  perpetual_price : ℚ
  futures_price : ℚ
  spread_percent : ℚ
  funding_rate : ℚ
  avg_funding_rate : ℚ
  days_until_expiration : ℚ
  net_profit_percent : ℚ
  return_on_capital : ℚ
  deriving DecidableEq

/-- Dashboard.tsx formatPercent: a plus sign for nonnegative values,
two fraction digits, and a percent sign; no multiplication by 100. -/
def dashFormatPercent (num : ℚ) : String :=
  (if num ≥ 0 then "+" else "") ++ toFixed num 2 ++ "%"

/-- Dashboard.tsx spread cell: spread_percent is passed to formatPercent
as-is (it is already expressed in percent). -/
def dashSpreadCellText (i : InstrumentData) : String :=
  dashFormatPercent i.spread_percent

/-- Dashboard.tsx funding-rate cell: funding_rate is a decimal and is
multiplied by 100 before formatting. -/
def dashFundingRateCellText (i : InstrumentData) : String :=
  dashFormatPercent (i.funding_rate * 100)

/-- Dashboard.tsx average-funding-rate cell: avg_funding_rate is a
decimal and is multiplied by 100 before formatting. -/
def dashAvgFrCellText (i : InstrumentData) : String :=
  dashFormatPercent (i.avg_funding_rate * 100)

/-- AssetPage.tsx spread cell: spread_percent rendered with
formatPercentAlready at the default two fraction digits. -/
def assetSpreadCellText (f : FutureData) : String :=
  formatPercentAlready f.spread_percent 2

/-- Helper building a dashboard row from prices, a spread value and a
funding rate. -/
def mkInstrument (fut perp spread fr : ℚ) : InstrumentData :=
  { symbol := "ETH"
    futures_symbol := "ETHUSDT-26DEC25"
    perpetual_price := perp
    futures_price := fut
    spread_percent := spread
    funding_rate := fr
    avg_funding_rate := fr
    days_until_expiration := 30
    net_profit_percent := 0
    return_on_capital := 0 }

/-! ## Configuration store

The configuration endpoint's validation lives in the backend, which is
not part of the repository sources; it is modelled from the
specification (section 6: update accepts a partial set of fields and
must validate numeric ranges — leverage > 0, 0 ≤ risk_free_rate,
capital_usdt > 0 — before applying; rejected updates leave Config
unchanged and report which field failed). -/

/-- The process-wide configuration (spec section 3). -/
structure Config where
  spread_threshold_percent : ℚ
  funding_rate_history_days : ℚ
  monitoring_interval_seconds : ℚ
  return_on_capital_threshold : ℚ
  capital_usdt : ℚ
  leverage : ℚ
  risk_free_rate : ℚ
  deriving DecidableEq

/-- A partial configuration update: absent fields are left untouched. -/
structure ConfigUpdate where
  spread_threshold_percent : Option ℚ
  funding_rate_history_days : Option ℚ
  monitoring_interval_seconds : Option ℚ
  return_on_capital_threshold : Option ℚ
  capital_usdt : Option ℚ
  leverage : Option ℚ
  risk_free_rate : Option ℚ
  deriving DecidableEq

/-- The update that provides no field. -/
def emptyUpdate : ConfigUpdate :=
  { spread_threshold_percent := none
    funding_rate_history_days := none
    monitoring_interval_seconds := none
    return_on_capital_threshold := none
    capital_usdt := none
    leverage := none
    risk_free_rate := none }

/-- Modelled from the spec: validate the numeric ranges of the provided
fields, returning the name of the first offending field, or none when
all provided fields are in range. -/
def validateUpdate (u : ConfigUpdate) : Option String :=
  if u.leverage.any (fun l => decide (l ≤ 0)) then some "leverage"
  else if u.risk_free_rate.any (fun r => decide (r < 0)) then some "risk_free_rate"
  else if u.capital_usdt.any (fun c => decide (c ≤ 0)) then some "capital_usdt"
  else none

/-- Overlay the provided fields of an update onto a configuration. -/
def overlayUpdate (c : Config) (u : ConfigUpdate) : Config :=
  { spread_threshold_percent :=
      u.spread_threshold_percent.getD c.spread_threshold_percent
    funding_rate_history_days :=
      u.funding_rate_history_days.getD c.funding_rate_history_days
    monitoring_interval_seconds :=
      u.monitoring_interval_seconds.getD c.monitoring_interval_seconds
    return_on_capital_threshold :=
      u.return_on_capital_threshold.getD c.return_on_capital_threshold
    capital_usdt := u.capital_usdt.getD c.capital_usdt
    leverage := u.leverage.getD c.leverage
    risk_free_rate := u.risk_free_rate.getD c.risk_free_rate }

/-- Modelled from the spec: the update operation validates before
applying, so a rejection names the offending field and applies
nothing. -/
def updateConfig (c : Config) (u : ConfigUpdate) : Except String Config :=
  match validateUpdate u with
  | some field => Except.error field
  | none => Except.ok (overlayUpdate c u)

/-- The configuration a subsequent read returns after an update attempt:
the new configuration on success, the prior one on rejection. -/
def configAfterUpdate (c : Config) (u : ConfigUpdate) : Config :=
  match updateConfig c u with
  | Except.error _ => c
  | Except.ok c2 => c2

/-- A concrete valid configuration for witnesses. -/
def sampleConfig : Config :=
  { spread_threshold_percent := 1/2
    funding_rate_history_days := 30
    monitoring_interval_seconds := 60
    return_on_capital_threshold := 50
    capital_usdt := 10000
    leverage := 10
    risk_free_rate := 5/100 }

/-! ## WebSocket service and dashboard consumer

api.ts WebSocketService keeps a Set of listeners; onmessage parses the
raw frame inside try/catch and invokes every listener with the parsed
value; subscribe adds a listener and returns a closure deleting it;
disconnect clears the pending reconnect timer and closes the socket; the
onclose handler installed by connect schedules a reconnect whenever a
socket closes.  Dashboard.tsx subscribes a listener that replaces its
instrument list when the payload is an array and leaves it unchanged
otherwise. -/

/-- A parsed JSON value (the result of JSON.parse). -/
inductive JValue where
  | jnull : JValue
  | jbool : Bool → JValue
  | jnum : ℚ → JValue
  | jstr : String → JValue
  | jarr : List JValue → JValue
  | jobj : List (String × JValue) → JValue

/-- Array.isArray. -/
def isArray : JValue → Bool
  | JValue.jarr _ => true
  | _ => false

/-- The mutable state of a WebSocketService instance: the listener set
(listeners are identified by numbers), whether a reconnect timer is
pending, how many closed-but-not-yet-reported sockets will still fire
their onclose handler, and whether this.ws currently holds a socket. -/
structure WSState where
  listeners : List ℕ
  reconnectPending : Bool
  pendingCloseEvents : ℕ
  connected : Bool
  deriving DecidableEq

/-- WebSocketService.subscribe: this.listeners.add(listener) — a Set
add, so an already-present listener is not duplicated. -/
def wsSubscribe (s : WSState) (l : ℕ) : WSState :=
  { s with listeners := if l ∈ s.listeners then s.listeners else s.listeners ++ [l] }

/-- The closure returned by subscribe:
this.listeners.delete(listener). -/
def wsUnsubscribe (s : WSState) (l : ℕ) : WSState :=
  { s with listeners := s.listeners.filter (fun x => x ≠ l) }

/-- ws.onmessage: the outcome of JSON.parse is none when parsing threw
(the catch logs and invokes nobody) and some d otherwise, in which case
every listener in the set is invoked with the same parsed value d.  The
result lists the (listener, payload) invocations of this message. -/
def onMessageInvocations (s : WSState) (parsed : Option JValue) :
    List (ℕ × JValue) :=
  match parsed with
  | none => []
  | some d => s.listeners.map (fun l => (l, d))

/-- WebSocketService.connect: installs the handlers and stores a fresh
socket in this.ws. -/
def wsConnect (s : WSState) : WSState :=
  { s with connected := true }

/-- WebSocketService.disconnect: clearTimeout on the pending reconnect
timer, then ws.close() and this.ws = null.  Closing a live socket means
its onclose handler will still fire later, which the pendingCloseEvents
counter records. -/
def wsDisconnect (s : WSState) : WSState :=
  { s with reconnectPending := false
           pendingCloseEvents :=
             s.pendingCloseEvents + (if s.connected then 1 else 0)
           connected := false }

/-- The onclose handler installed by connect: when a socket created by
this service closes — including a close initiated by disconnect() — the
handler runs unconditionally (it is attached to the socket object, not
looked up through this.ws) and schedules a reconnect with setTimeout. -/
def wsOnSocketClosed (s : WSState) : WSState :=
  if s.pendingCloseEvents > 0 then
    { s with pendingCloseEvents := s.pendingCloseEvents - 1
             reconnectPending := true }
  else s

/-- An event the service can observe. -/
inductive WSEvent where
  | subscribeEv : ℕ → WSEvent
  | unsubscribeEv : ℕ → WSEvent
  | messageEv : Option JValue → WSEvent
  | connectEv : WSEvent
  | disconnectEv : WSEvent
  | socketClosedEv : WSEvent

/-- One step of the service: the successor state and the listener
invocations the event produces. -/
def wsStep (s : WSState) : WSEvent → WSState × List (ℕ × JValue)
  | WSEvent.subscribeEv l => (wsSubscribe s l, [])
  | WSEvent.unsubscribeEv l => (wsUnsubscribe s l, [])
  | WSEvent.messageEv p => (s, onMessageInvocations s p)
  | WSEvent.connectEv => (wsConnect s, [])
  | WSEvent.disconnectEv => (wsDisconnect s, [])
  | WSEvent.socketClosedEv => (wsOnSocketClosed s, [])

/-- Run a sequence of events, accumulating every listener invocation. -/
def wsRun (s : WSState) : List WSEvent → WSState × List (ℕ × JValue)
  | [] => (s, [])
  | e :: rest =>
      let step := wsStep s e
      let tail := wsRun step.1 rest
      (tail.1, step.2 ++ tail.2)

/-- Dashboard.tsx listener: an array payload replaces the instrument
list wholesale; any other payload leaves it unchanged (the branch only
logs). -/
def dashboardApplyMessage (cur : List JValue) (payload : JValue) :
    List JValue :=
  match payload with
  | JValue.jarr xs => xs
  | _ => cur

/-! ## The Settings editor

The Settings page keeps the form state in a Config-shaped object whose
fields, TypeScript types notwithstanding, hold either a number or a raw
string once handleChange has run: it computes parseFloat(value) and
stores the raw string when that is NaN, the number otherwise, with no
range check anywhere before handleSave PUTs the object to the
configuration endpoint. -/

/-- A form field value after handleChange: a parsed number or the raw
input string. -/
inductive ConfigValue where
  | num : ℚ → ConfigValue
  | str : String → ConfigValue
  deriving DecidableEq

/-- The fields the Settings form edits. -/
inductive ConfigField where
  | leverage : ConfigField
  | capital_usdt : ConfigField
  | risk_free_rate : ConfigField
  | return_on_capital_threshold : ConfigField
  deriving DecidableEq

/-- The Settings form state. -/
structure ConfigForm where
  leverage : ConfigValue
  capital_usdt : ConfigValue
  risk_free_rate : ConfigValue
  return_on_capital_threshold : ConfigValue
  deriving DecidableEq

/-- Read one form field. -/
def getField (c : ConfigForm) : ConfigField → ConfigValue
  | ConfigField.leverage => c.leverage
  | ConfigField.capital_usdt => c.capital_usdt
  | ConfigField.risk_free_rate => c.risk_free_rate
  | ConfigField.return_on_capital_threshold => c.return_on_capital_threshold

/-- Write one form field (the computed-key spread in handleChange). -/
def setField (c : ConfigForm) : ConfigField → ConfigValue → ConfigForm
  | ConfigField.leverage, v => { c with leverage := v }
  | ConfigField.capital_usdt, v => { c with capital_usdt := v }
  | ConfigField.risk_free_rate, v => { c with risk_free_rate := v }
  | ConfigField.return_on_capital_threshold, v =>
      { c with return_on_capital_threshold := v }

/-- The components of a decimal literal recognised by parseFloat. -/
structure NumParts where
  neg : Bool
  intDigits : ℕ
  fracDigits : ℕ
  fracLen : ℕ
  exp : ℤ
  deriving DecidableEq

/-- Longest run of leading decimal digits, as digit values, with the
rest of the input. -/
def takeDigits : List Char → List ℕ × List Char
  | [] => ([], [])
  | c :: rest =>
      if c.isDigit then
        let t := takeDigits rest
        ((c.toNat - '0'.toNat) :: t.1, t.2)
      else ([], c :: rest)

/-- The natural number a digit-value list denotes. -/
def natOfDigits (ds : List ℕ) : ℕ :=
  ds.foldl (fun a d => a * 10 + d) 0

/-- The optional exponent part: e or E, an optional sign, digits; an
incomplete exponent contributes nothing (parseFloat keeps the longest
valid literal). -/
def takeExponent (cs : List Char) : ℤ :=
  match cs with
  | c :: rest =>
      if c = 'e' ∨ c = 'E' then
        match rest with
        | '+' :: rest2 =>
            let t := takeDigits rest2
            if t.1 = [] then 0 else (natOfDigits t.1 : ℤ)
        | '-' :: rest2 =>
            let t := takeDigits rest2
            if t.1 = [] then 0 else -(natOfDigits t.1 : ℤ)
        | _ =>
            let t := takeDigits rest
            if t.1 = [] then 0 else (natOfDigits t.1 : ℤ)
      else 0
  | [] => 0

/-- Structural part of JavaScript parseFloat: skip leading whitespace,
read an optional sign, integer digits, an optional fraction, an optional
exponent; none when no digit is found (parseFloat returns NaN).  The
special literals Infinity and NaN are outside this model. -/
def parseFloatParts (s : String) : Option NumParts :=
  let cs := s.toList.dropWhile (fun c => c = ' ' ∨ c = '\t' ∨ c = '\n' ∨ c = '\r')
  let signAndRest : Bool × List Char :=
    match cs with
    | '+' :: r => (false, r)
    | '-' :: r => (true, r)
    | _ => (false, cs)
  let int := takeDigits signAndRest.2
  let fracAndRest : List ℕ × List Char :=
    match int.2 with
    | '.' :: r => takeDigits r
    | _ => ([], int.2)
  if int.1 = [] ∧ fracAndRest.1 = [] then none
  else some
    { neg := signAndRest.1
      intDigits := natOfDigits int.1
      fracDigits := natOfDigits fracAndRest.1
      fracLen := fracAndRest.1.length
      exp := takeExponent fracAndRest.2 }

/-- The rational a parsed literal denotes. -/
def ratOfParts (p : NumParts) : ℚ :=
  (if p.neg then -1 else 1) *
    ((p.intDigits : ℚ) + (p.fracDigits : ℚ) / 10 ^ p.fracLen) *
    (10 : ℚ) ^ p.exp

/-- JavaScript parseFloat over decimal literals. -/
def parseFloat (s : String) : Option ℚ :=
  (parseFloatParts s).map ratOfParts

/-- Settings handleChange: parseFloat the input; store the raw string
when it is NaN, the parsed number otherwise — no range check. -/
def handleChange (c : ConfigForm) (field : ConfigField) (value : String) :
    ConfigForm :=
  match parseFloat value with
  | some q => setField c field (ConfigValue.num q)
  | none => setField c field (ConfigValue.str value)

/-- Settings handleSave: the body PUT to the configuration endpoint is
the form state itself, unchanged and unvalidated. -/
def handleSaveBody (c : ConfigForm) : ConfigForm := c

/-! ## Helper lemmas -/

/-- Evaluation helper: once the floor argument of toFixed is known, the
rest of the rendering is integer computation. -/
theorem toFixed_eval (q : ℚ) (d : ℕ) (n : ℤ)
    (h : ⌊q * (10 : ℚ) ^ d + 1 / 2⌋ = n) :
    toFixed q d = renderFixed n d := by
  rw [toFixed, h]

/-- A single step never invokes an absent listener and never makes a
listener present unless the event is that listener's subscribe. -/
theorem wsStep_not_listening (s : WSState) (e : WSEvent) (l : ℕ)
    (hl : l ∉ s.listeners) (he : e ≠ WSEvent.subscribeEv l) :
    l ∉ (wsStep s e).1.listeners ∧ ∀ d, (l, d) ∉ (wsStep s e).2 := by
  cases e with
  | subscribeEv x =>
      refine ⟨?_, by simp [wsStep]⟩
      have hxl : x ≠ l := fun h => he (by rw [h])
      simp only [wsStep, wsSubscribe]
      by_cases hx : x ∈ s.listeners
      · simpa [hx] using hl
      · simp only [hx, if_false, List.mem_append, List.mem_singleton]
        rintro (h | h)
        · exact hl h
        · exact hxl h.symm
  | unsubscribeEv x =>
      refine ⟨?_, by simp [wsStep]⟩
      simp only [wsStep, wsUnsubscribe, List.mem_filter]
      rintro ⟨h, -⟩
      exact hl h
  | messageEv p =>
      refine ⟨hl, ?_⟩
      intro d
      cases p with
      | none => simp [wsStep, onMessageInvocations]
      | some v =>
          simp only [wsStep, onMessageInvocations, List.mem_map]
          rintro ⟨x, hx, hxe⟩
          injection hxe with h1 h2
          exact hl (h1 ▸ hx)
  | connectEv => exact ⟨hl, by simp [wsStep]⟩
  | disconnectEv => exact ⟨hl, by simp [wsStep]⟩
  | socketClosedEv =>
      refine ⟨?_, by simp [wsStep]⟩
      simp only [wsStep, wsOnSocketClosed]
      split
      · simpa using hl
      · exact hl

/-- Along any event sequence that never re-subscribes l, a listener
absent from the set receives no invocation and stays absent. -/
theorem wsRun_not_listening (l : ℕ) :
    ∀ (evs : List WSEvent) (s : WSState), l ∉ s.listeners →
      (∀ e ∈ evs, e ≠ WSEvent.subscribeEv l) →
      (∀ d, (l, d) ∉ (wsRun s evs).2) ∧ l ∉ (wsRun s evs).1.listeners := by
  intro evs
  induction evs with
  | nil => intro s hl _; simpa [wsRun] using hl
  | cons e rest ih =>
      intro s hl hevs
      have he : e ≠ WSEvent.subscribeEv l := hevs e (by simp)
      have hstep := wsStep_not_listening s e l hl he
      have hrest := ih (wsStep s e).1 hstep.1
        (fun x hx => hevs x (by simp [hx]))
      refine ⟨?_, ?_⟩
      · intro d
        simp only [wsRun, List.mem_append]
        rintro (h | h)
        · exact hstep.2 d h
        · exact hrest.1 d h
      · simpa [wsRun] using hrest.2

/-! ## Claim C1 -/

/-- C1: the highlight flag is true if and only if all three strict
conditions hold — spread_percent < funding_rate_until_expiration,
spread_percent < fair_spread_percent, and net_profit_current_fr > 0 —
and it is false when any one fails, including the boundary cases where
the two compared values are exactly equal and where a required field is
absent. -/
theorem highlight_iff_all_three_strict (sp fr fs np : ℚ) :
    (shouldHighlight (mkFuture (some sp) (some fr) (some fs) (some np)) = true ↔
      (sp < fr ∧ sp < fs ∧ 0 < np)) ∧
    shouldHighlight (mkFuture (some sp) (some sp) (some fs) (some np)) = false ∧
    shouldHighlight (mkFuture (some sp) (some fr) (some sp) (some np)) = false ∧
    shouldHighlight (mkFuture (some sp) (some fr) (some fs) (some 0)) = false ∧
    shouldHighlight (mkFuture none (some fr) (some fs) (some np)) = false := by
  refine ⟨?_, ?_, ?_, ?_, ?_⟩
  · simp [shouldHighlight, mkFuture, and_assoc]
  · simp [shouldHighlight, mkFuture]
  · simp [shouldHighlight, mkFuture]
  · simp [shouldHighlight, mkFuture]
  · simp [shouldHighlight, mkFuture]

/-! ## Claim C2 -/

/-- C2: a missing derived metric — a funding average over a window with
zero in-window samples, or return_on_capital at d = 0 — is surfaced as
none and rendered as the string N/A, never as zero; a defined value of 0
renders as a numeric percent string distinct from N/A. -/
theorem missing_metrics_render_as_na :
    (∀ (samples : List FundingSample) (sym : String) (win now : ℚ),
        samples.filter (fun s => s.symbol == sym && inWindow now win s) = [] →
        averageOver samples sym win now = none) ∧
    (∀ np : ℚ, returnOnCapital np 0 = none) ∧
    (∀ d : ℕ, formatPercentAlready none d = "N/A") ∧
    (∀ f : FutureData, f.return_on_capital = none → rocCellText f = "N/A") ∧
    formatPercentAlready (some 0) 2 = "0.00%" ∧
    formatPercentAlready (some 0) 2 ≠ "N/A" := by
  refine ⟨?_, ?_, ?_, ?_, ?_, ?_⟩
  · intro samples sym win now h
    simp [averageOver, h]
  · intro np
    simp [returnOnCapital]
  · intro d
    simp [formatPercentAlready]
  · intro f h
    simp [rocCellText, h]
  · rw [formatPercentAlready, toFixed_eval 0 2 0 (by norm_num)]; decide
  · rw [formatPercentAlready, toFixed_eval 0 2 0 (by norm_num)]; decide

/-- Witness for C2: a sample lying outside a 30-day window yields an
unavailable average, and a row without return_on_capital renders as
N/A. -/
theorem missing_metrics_render_as_na_witness :
    averageOver [{ symbol := "ETHUSDT", rate := 1/10000, timestamp := 0 }]
      "ETHUSDT" 30 10000000 = none ∧
    rocCellText (mkFuture none none none none) = "N/A" := by
  refine ⟨missing_metrics_render_as_na.1 _ "ETHUSDT" 30 10000000 ?_,
    missing_metrics_render_as_na.2.2.2.1 (mkFuture none none none none) rfl⟩
  simp [List.filter, inWindow]
  norm_num

/-! ## Claim C3 -/

/-- C3: the ProfitCalculator formulas on the section 8 scenario —
perpetual mark 3000, future mark 3015, d = 30, r = 0.05, fr_short =
0.0001 per interval, 3 intervals per day, round-trip commission 0.1160
percent — give spread 0.5, fair price 3000 * (1 + 0.05 * 30 / 365) which
is 3012.33 to the cent, fair spread about 0.411, projected funding 0.9,
net profit 0.284, and return on capital 0.284 * 365 / 30 which is about
3.455. -/
theorem scenario_metrics :
    spreadPercent 3015 3000 = 1/2 ∧
    fairPrice 3000 (5/100) 30 = 3000 * (1 + (5/100) * 30 / 365) ∧
    |fairPrice 3000 (5/100) 30 - 301233/100| < 1/100 ∧
    |fairSpreadPct 3000 (5/100) 30 - 411/1000| < 1/1000 ∧
    roundTripCommissionPct = 116/1000 ∧
    fundingRateUntilExpiration (1/10000) 30 = 9/10 ∧
    netProfitCurrentFr (1/10000) 30 (spreadPercent 3015 3000) =
      9/10 - 1/2 - 116/1000 ∧
    netProfitCurrentFr (1/10000) 30 (spreadPercent 3015 3000) = 284/1000 ∧
    returnOnCapital (284/1000) 30 = some (284/1000 * (365/30)) ∧
    |(284/1000 : ℚ) * (365/30) - 3455/1000| < 1/1000 := by
  refine ⟨?_, ?_, ?_, ?_, ?_, ?_, ?_, ?_, ?_, ?_⟩ <;>
    norm_num [spreadPercent, fairPrice, fairSpreadPct, roundTripCommissionPct,
      legCommissionPct, fundingRateUntilExpiration, netProfitCurrentFr,
      returnOnCapital, abs_sub_lt_iff]
  all_goals rw [abs_of_pos (by norm_num)]
  all_goals norm_num

/-! ## Claim C4 -/

/-- C4: spread_percent follows the single convention (future_price -
perpetual_price) / perpetual_price * 100 and every consumer renders it
without further rescaling — the displayed numeral is the convention
value itself — while funding_rate fields are decimals multiplied by 100
for display: the scenario spread of 0.5 renders as 0.50 percent on both
pages, and a funding rate of 0.0001 renders as 0.01 percent. -/
theorem spread_convention_across_consumers :
    (∀ fut perp fr : ℚ,
        dashSpreadCellText (mkInstrument fut perp (spreadPercent fut perp) fr) =
          (if (fut - perp) / perp * 100 ≥ 0 then "+" else "") ++
            toFixed ((fut - perp) / perp * 100) 2 ++ "%") ∧
    (∀ i : InstrumentData,
        dashFundingRateCellText i =
          (if i.funding_rate * 100 ≥ 0 then "+" else "") ++
            toFixed (i.funding_rate * 100) 2 ++ "%") ∧
    spreadPercent 3015 3000 = 1/2 ∧
    dashSpreadCellText (mkInstrument 3015 3000 (spreadPercent 3015 3000) (1/10000)) =
      "+0.50%" ∧
    assetSpreadCellText (mkFuture (some (spreadPercent 3015 3000)) none none none) =
      "0.50%" ∧
    dashFundingRateCellText (mkInstrument 3015 3000 (1/2) (1/10000)) = "+0.01%" ∧
    formatPercent (some (1/10000)) 4 = "0.0100%" := by
  have hsp : spreadPercent 3015 3000 = 1/2 := by norm_num [spreadPercent]
  refine ⟨?_, ?_, hsp, ?_, ?_, ?_, ?_⟩
  · intro fut perp fr
    simp [dashSpreadCellText, dashFormatPercent, mkInstrument, spreadPercent]
  · intro i
    simp [dashFundingRateCellText, dashFormatPercent]
  · rw [dashSpreadCellText, mkInstrument, dashFormatPercent]
    simp only [hsp]
    rw [if_pos (by norm_num), toFixed_eval (1/2) 2 50 (by norm_num)]
    decide
  · rw [assetSpreadCellText, mkFuture]
    simp only [hsp]
    rw [formatPercentAlready, toFixed_eval (1/2) 2 50 (by norm_num)]
    decide
  · rw [dashFundingRateCellText, mkInstrument, dashFormatPercent]
    rw [if_pos (by norm_num), toFixed_eval ((1/10000 : ℚ) * 100) 2 1 (by norm_num)]
    decide
  · rw [formatPercent, toFixed_eval ((1/10000 : ℚ) * 100) 4 100 (by norm_num)]
    decide

/-! ## Claim C5 -/

/-- C5: an update carrying leverage = -1 is rejected with the offending
field named, the subsequent read returns the prior configuration
unchanged, and in general every rejected update leaves the configuration
exactly as it was (nothing is partially applied). -/
theorem invalid_update_rejected_atomically :
    (∀ c : Config,
        updateConfig c { emptyUpdate with leverage := some (-1) } =
          Except.error "leverage") ∧
    (∀ c : Config,
        configAfterUpdate c { emptyUpdate with leverage := some (-1) } = c) ∧
    (∀ (c : Config) (u : ConfigUpdate),
        validateUpdate u ≠ none → configAfterUpdate c u = c) := by
  have hval : validateUpdate { emptyUpdate with leverage := some (-1) } =
      some "leverage" := by
    rw [validateUpdate]
    norm_num [emptyUpdate, Option.any]
  refine ⟨?_, ?_, ?_⟩
  · intro c
    rw [updateConfig, hval]
  · intro c
    rw [configAfterUpdate, updateConfig, hval]
  · intro c u h
    rw [configAfterUpdate, updateConfig]
    cases hv : validateUpdate u with
    | none => exact absurd hv h
    | some field => rfl

/-- Witness for C5: rejecting leverage = -1 leaves the sample
configuration unchanged. -/
theorem invalid_update_rejected_atomically_witness :
    configAfterUpdate sampleConfig { emptyUpdate with leverage := some (-1) } =
      sampleConfig := by
  refine invalid_update_rejected_atomically.2.2 sampleConfig _ ?_
  rw [validateUpdate]
  norm_num [emptyUpdate, Option.any]
  exact fun h => Option.noConfusion h

/-! ## Claim C6 -/

/-- C6: on a delivered message every currently-subscribed listener is
invoked, all invocations of that message carry the same parsed payload,
and the dashboard consumer replaces its instrument list wholesale with
the delivered array — after delivery the list equals exactly the
delivered array. -/
theorem broadcast_same_payload_replaces_view :
    (∀ (s : WSState) (d : JValue) (l : ℕ), l ∈ s.listeners →
        (l, d) ∈ onMessageInvocations s (some d)) ∧
    (∀ (s : WSState) (d p : JValue) (l : ℕ),
        (l, p) ∈ onMessageInvocations s (some d) → p = d) ∧
    (∀ (cur xs : List JValue), dashboardApplyMessage cur (JValue.jarr xs) = xs) := by
  refine ⟨?_, ?_, ?_⟩
  · intro s d l hl
    simp only [onMessageInvocations, List.mem_map]
    exact ⟨l, hl, rfl⟩
  · intro s d p l h
    simp only [onMessageInvocations, List.mem_map] at h
    obtain ⟨x, -, hxe⟩ := h
    injection hxe with h1 h2
    exact h2.symm
  · intro cur xs
    rfl

/-- Witness for C6: with listeners 1 and 2 subscribed, listener 1
receives the delivered array, and the dashboard view becomes exactly
that array. -/
theorem broadcast_same_payload_replaces_view_witness :
    (1, JValue.jarr []) ∈
      onMessageInvocations
        { listeners := [1, 2], reconnectPending := false,
          pendingCloseEvents := 0, connected := true }
        (some (JValue.jarr [])) ∧
    dashboardApplyMessage [JValue.jnull] (JValue.jarr []) = [] := by
  exact ⟨broadcast_same_payload_replaces_view.1 _ (JValue.jarr []) 1 (by simp),
    broadcast_same_payload_replaces_view.2.2 [JValue.jnull] []⟩

/-! ## Claim C7 -/

/-- C7: for positive days-to-expiration the fair spread has the same
sign as the risk-free rate, and at d = 0 the fair price collapses to the
perpetual price, making the fair spread zero. -/
theorem fair_spread_sign_and_expiry (P r d : ℚ) :
    (0 < P → 0 < d →
      ((0 < r → 0 < fairSpreadPct P r d) ∧
       (r < 0 → fairSpreadPct P r d < 0) ∧
       (r = 0 → fairSpreadPct P r d = 0))) ∧
    fairPrice P r 0 = P ∧
    (P ≠ 0 → fairSpreadPct P r 0 = 0) := by
  have key : P ≠ 0 → fairSpreadPct P r d = r * d * 100 / 365 := by
    intro hP
    rw [fairSpreadPct, fairPrice]
    field_simp
    ring
  refine ⟨?_, ?_, ?_⟩
  · intro hP hd
    rw [key (ne_of_gt hP)]
    refine ⟨fun hr => by positivity, fun hr => ?_, fun hr => by simp [hr]⟩
    have h1 : r * d * 100 < 0 := by
      have := mul_pos hd (by norm_num : (0:ℚ) < 100)
      nlinarith
    exact div_neg_of_neg_of_pos h1 (by norm_num)
  · rw [fairPrice]; ring
  · intro hP
    rw [fairSpreadPct, fairPrice]
    field_simp

/-- Witness for C7: the scenario inputs give a positive fair spread for
a positive rate, and a zero fair spread at expiry. -/
theorem fair_spread_sign_and_expiry_witness :
    0 < fairSpreadPct 3000 (5/100) 30 ∧ fairSpreadPct 3000 (5/100) 0 = 0 := by
  refine ⟨((fair_spread_sign_and_expiry 3000 (5/100) 30).1
      (by norm_num) (by norm_num)).1 (by norm_num),
    (fair_spread_sign_and_expiry 3000 (5/100) 0).2.2 (by norm_num)⟩

/-! ## Claim C8 -/

/-- C8 counterexample: start from a connected service with no pending
reconnect timer.  Immediately after disconnect() no reconnect is
pending, but the close event of the socket that disconnect() itself
closed still runs the onclose handler, which schedules a reconnect — so
a further connection attempt IS scheduled after disconnect(), refuting
the second half of the claim. -/
theorem disconnect_then_close_schedules_reconnect :
    (wsDisconnect
        { listeners := [], reconnectPending := false,
          pendingCloseEvents := 0, connected := true }).reconnectPending
      = false ∧
    (wsOnSocketClosed (wsDisconnect
        { listeners := [], reconnectPending := false,
          pendingCloseEvents := 0, connected := true })).reconnectPending
      = true := by
  constructor
  · rfl
  · rfl

/-- C8 amended: the closure returned by subscribe removes its listener,
and the listener is never invoked by any later message unless
re-subscribed; disconnect() clears the pending reconnect timer at the
moment of the call — but the onclose handler of the socket closed by
disconnect() still fires and schedules a new connection attempt. -/
theorem unsubscribe_removes_listener_disconnect_clears_timer :
    (∀ (s : WSState) (l : ℕ), l ∉ (wsUnsubscribe s l).listeners) ∧
    (∀ (s : WSState) (l : ℕ) (evs : List WSEvent),
        (∀ e ∈ evs, e ≠ WSEvent.subscribeEv l) →
        ∀ d, (l, d) ∉ (wsRun (wsUnsubscribe s l) evs).2) ∧
    (∀ s : WSState, (wsDisconnect s).reconnectPending = false) ∧
    (∀ s : WSState, s.connected = true →
        (wsOnSocketClosed (wsDisconnect s)).reconnectPending = true) := by
  have hout : ∀ (s : WSState) (l : ℕ), l ∉ (wsUnsubscribe s l).listeners := by
    intro s l
    simp [wsUnsubscribe, List.mem_filter]
  refine ⟨hout, ?_, ?_, ?_⟩
  · intro s l evs hevs d
    exact ((wsRun_not_listening l evs (wsUnsubscribe s l) (hout s l) hevs).1) d
  · intro s
    rfl
  · intro s hc
    simp [wsOnSocketClosed, wsDisconnect, hc]

/-- Witness for C8: listener 7, once unsubscribed, is not invoked by a
later message, and closing the socket disconnected from a connected
state schedules a reconnect. -/
theorem unsubscribe_removes_listener_disconnect_clears_timer_witness :
    (7, JValue.jnull) ∉
      (wsRun
        (wsUnsubscribe
          { listeners := [7], reconnectPending := false,
            pendingCloseEvents := 0, connected := true } 7)
        [WSEvent.messageEv (some JValue.jnull)]).2 ∧
    (wsOnSocketClosed (wsDisconnect
        { listeners := [7], reconnectPending := false,
          pendingCloseEvents := 0, connected := true })).reconnectPending
      = true := by
  constructor
  · exact unsubscribe_removes_listener_disconnect_clears_timer.2.1 _ 7 _
      (by intro e he; simp at he; simp [he]) JValue.jnull
  · exact unsubscribe_removes_listener_disconnect_clears_timer.2.2.2 _ rfl

/-! ## Claim C9 -/

/-- C9: the Settings editor validates nothing before submission — for
any input string, handleChange stores the parseFloat value into the
field when the parse yields a number (even an out-of-range one such as
leverage -1) and stores the raw string itself otherwise, and handleSave
submits the form state as-is. -/
theorem settings_no_validation :
    (∀ (c : ConfigForm) (f : ConfigField) (s : String) (q : ℚ),
        parseFloat s = some q →
        getField (handleChange c f s) f = ConfigValue.num q) ∧
    (∀ (c : ConfigForm) (f : ConfigField) (s : String),
        parseFloat s = none →
        getField (handleChange c f s) f = ConfigValue.str s) ∧
    (∀ c : ConfigForm, handleSaveBody c = c) ∧
    parseFloat "-1" = some (-1) ∧
    parseFloat "abc" = none := by
  have hget : ∀ (c : ConfigForm) (f : ConfigField) (v : ConfigValue),
      getField (setField c f v) f = v := by
    intro c f v
    cases f <;> rfl
  refine ⟨?_, ?_, fun c => rfl, ?_, ?_⟩
  · intro c f s q h
    rw [handleChange, h]
    exact hget c f _
  · intro c f s h
    rw [handleChange, h]
    exact hget c f _
  · have hparts : parseFloatParts "-1" =
        some { neg := true, intDigits := 1, fracDigits := 0, fracLen := 0,
               exp := 0 } := by decide
    rw [parseFloat, hparts]
    show some (ratOfParts _) = some (-1)
    rw [ratOfParts]
    norm_num
  · rw [parseFloat]
    rw [show parseFloatParts "abc" = none by decide]
    rfl

/-- Witness for C9: typing -1 into the leverage field stores the number
-1 (negative leverage accepted), and free text is stored as the raw
string. -/
theorem settings_no_validation_witness :
    getField
      (handleChange
        { leverage := ConfigValue.num 10, capital_usdt := ConfigValue.num 10000,
          risk_free_rate := ConfigValue.num (5/100),
          return_on_capital_threshold := ConfigValue.num 50 }
        ConfigField.leverage "-1")
      ConfigField.leverage = ConfigValue.num (-1) ∧
    getField
      (handleChange
        { leverage := ConfigValue.num 10, capital_usdt := ConfigValue.num 10000,
          risk_free_rate := ConfigValue.num (5/100),
          return_on_capital_threshold := ConfigValue.num 50 }
        ConfigField.leverage "abc")
      ConfigField.leverage = ConfigValue.str "abc" := by
  constructor
  · exact settings_no_validation.1 _ ConfigField.leverage "-1" (-1)
      settings_no_validation.2.2.2.1
  · exact settings_no_validation.2.1 _ ConfigField.leverage "abc"
      settings_no_validation.2.2.2.2

/-! ## Claim C10 -/

/-- C10: a frame whose JSON.parse throws invokes no listener at all, and
a parsed payload that is not an array leaves the dashboard's instrument
list unchanged — malformed input never corrupts or clears the displayed
view. -/
theorem malformed_input_preserves_view :
    (∀ s : WSState, onMessageInvocations s none = []) ∧
    (∀ s : WSState, (wsRun s [WSEvent.messageEv none]).2 = []) ∧
    (∀ (cur : List JValue) (v : JValue), isArray v = false →
        dashboardApplyMessage cur v = cur) := by
  refine ⟨fun s => rfl, fun s => rfl, ?_⟩
  intro cur v hv
  cases v with
  | jarr xs => simp [isArray] at hv
  | jnull => rfl
  | jbool b => rfl
  | jnum q => rfl
  | jstr t => rfl
  | jobj fields => rfl

/-- Witness for C10: a non-array object payload leaves a one-row view
unchanged. -/
theorem malformed_input_preserves_view_witness :
    dashboardApplyMessage [JValue.jnull] (JValue.jobj []) = [JValue.jnull] :=
  malformed_input_preserves_view.2.2 [JValue.jnull] (JValue.jobj []) rfl
